import Mathlib

/-!
# Verification of the job-application ingestion pipeline

A shallow embedding, in Lean 4, of the ingestion-and-normalization
pipeline of the CP494 job-application system: the relative-time parser
and freshness engine shared by `script/scrape_zapply_github.py` and
`script/scrape_zapply_swe_2026.py`, the classification rules of the
three scrapers, the snapshot writers (`save_to_database` in each
scraper), and the orchestrator `script/master_scraper.py`.

Python strings are embedded as `List Char`; Python `float` day counts
are embedded as `ℚ` (every arithmetic operation the scripts perform on
them — division of a small integer by 24, multiplication by 7 or 30,
comparison against the integer freshness breakpoints — is exact in
double precision for the magnitudes that occur, so the rational model
agrees with the float semantics on every comparison the code makes).
Absolute dates (`datetime.now() - timedelta(days=d)`) are embedded by
their day offset `d` from "now"; only their presence or absence matters
to the specification.
-/

namespace JobPipeline

/-- Python `str.lower()` (ASCII fragment, which is all the scripts feed it). -/
def pyLower (s : List Char) : List Char := s.map Char.toLower

/-- Python's whitespace class `\s` / the default `str.strip()` set:
space, tab, newline, vertical tab, form feed, carriage return. -/
def isPySpace (c : Char) : Bool :=
  c == ' ' || c == '\t' || c == '\n' || c == '\x0b' || c == '\x0c' || c == '\r'

/-- Python `str.strip()`: drop leading and trailing whitespace. -/
def pyStrip (s : List Char) : List Char :=
  ((s.dropWhile isPySpace).reverse.dropWhile isPySpace).reverse

/-- The ten ASCII digit characters (the `\d` class on the inputs that occur). -/
def digitChars : List Char := ['0', '1', '2', '3', '4', '5', '6', '7', '8', '9']

/-- Value of a decimal digit string, as Python `int()` computes it. -/
def digitsToNat (ds : List Char) : ℕ :=
  ds.foldl (fun a c => 10 * a + (c.toNat - 48)) 0

/-- `needle` occurs as a contiguous substring of `hay`:
Python's `needle in hay` on strings. -/
def containsSub : List Char → List Char → Bool
  | [], needle => needle.isEmpty
  | a :: t, needle => needle.isPrefixOf (a :: t) || containsSub t needle

/-- The time units recognized by the regex `(\d+)\s*(h|d|w|mo|m)\s*ago` of
`parse_time_ago` (identical in `scrape_zapply_github.py` lines 18-45 and
`scrape_zapply_swe_2026.py` lines 17-44).  `mo` and `m` are distinct
alternatives of the regex but both mean months. -/
inductive TimeUnit
  | hours
  | days
  | weeks
  | months
  | monthsShort
deriving DecidableEq

/-- The characters each unit alternative matches. -/
def unitChars : TimeUnit → List Char
  | .hours => ['h']
  | .days => ['d']
  | .weeks => ['w']
  | .months => ['m', 'o']
  | .monthsShort => ['m']

/-- The `days_ago` computed by `parse_time_ago` for a matched value and unit:
hours/24, days x 1, weeks x 7, months x 30 (lines 30-40 of
`scrape_zapply_github.py`). -/
def unitDays (v : ℕ) : TimeUnit → ℚ
  | .hours => (v : ℚ) / 24
  | .days => (v : ℚ)
  | .weeks => (v : ℚ) * 7
  | .months => (v : ℚ) * 30
  | .monthsShort => (v : ℚ) * 30

/-- After the unit, the regex still requires `\s*ago`. -/
def matchTail (l : List Char) : Bool :=
  ['a', 'g', 'o'].isPrefixOf (l.dropWhile isPySpace)

/-- Match the `(h|d|w|mo|m)\s*ago` part of the regex, alternatives tried in
the regex's order (`mo` before `m`, with backtracking to `m` if the tail
fails after `mo`). -/
def matchUnit (l : List Char) : Option TimeUnit :=
  match l with
  | 'h' :: rest => if matchTail rest then some .hours else none
  | 'd' :: rest => if matchTail rest then some .days else none
  | 'w' :: rest => if matchTail rest then some .weeks else none
  | 'm' :: 'o' :: rest =>
      if matchTail rest then some .months
      else if matchTail ('o' :: rest) then some .monthsShort else none
  | 'm' :: rest => if matchTail rest then some .monthsShort else none
  | _ => none

/-- Attempt the regex `(\d+)\s*(h|d|w|mo|m)\s*ago` at the start of `l`. -/
def matchAt (l : List Char) : Option (ℕ × TimeUnit) :=
  let ds := l.takeWhile Char.isDigit
  if ds.isEmpty then none
  else
    match matchUnit ((l.drop ds.length).dropWhile isPySpace) with
    | some u => some (digitsToNat ds, u)
    | none => none

/-- `re.search` of the regex: leftmost position where a match succeeds. -/
def searchTimeAgo : List Char → Option (ℕ × TimeUnit)
  | [] => none
  | c :: rest =>
    match matchAt (c :: rest) with
    | some r => some r
    | none => searchTimeAgo rest

/-- `parse_time_ago` of `scrape_zapply_github.py` lines 18-45 (and, verbatim
the same code, `scrape_zapply_swe_2026.py` lines 17-44).  The input is
lower-cased and stripped, then the regex is searched; on failure the pair
`(None, None)` is returned.  The first component embeds `date_posted`
(an absolute date, represented by its `days_ago` offset from now); the
second is `days_ago` itself. -/
def parse_time_ago (s : List Char) : Option ℚ × Option ℚ :=
  match searchTimeAgo (pyLower (pyStrip s)) with
  | none => (none, none)
  | some (v, u) => (some (unitDays v u), some (unitDays v u))

/-- `calculate_freshness_score` of `scrape_zapply_github.py` lines 47-63
(and, verbatim the same code, `scrape_zapply_swe_2026.py` lines 46-62). -/
def calculate_freshness_score (days_ago : Option ℚ) : ℤ :=
  match days_ago with
  | none => 50
  | some d =>
    if d < 1 then 100
    else if d < 7 then 90
    else if d < 14 then 75
    else if d < 30 then 60
    else if d < 60 then 40
    else 20

/-- The `job_type` enumeration produced by the normalizers. -/
inductive JobType
  | internship
  | contract
  | fulltime
deriving DecidableEq

/-- The outcome of the fetch-and-parse front half of a scraper, with the
network and the concrete document abstracted away: the HTTP GET either
raises (`fetchError`, lines 78-87 of `scrape_zapply_github.py` /
lines 30-39 of `scrape_github_jobs.py`), or the table-parsing stage
raises (`parseError`, lines 211-215 / 131-135), or parsing completes
with a batch of rows. -/
inductive FetchOutcome (α : Type)
  | fetchError
  | parseError
  | ok (rows : List α)
deriving DecidableEq

/-- `DELETE FROM <table>` with no WHERE clause: removes every existing row
of the (single-source) table. -/
def deleteAllRows {α : Type} (_t : List α) : List α := []

/-- `DataFrame.to_sql(..., if_exists='append')` / a loop of `INSERT`
statements: appends the batch to the table. -/
def insertRows {α : Type} (t batch : List α) : List α := t ++ batch

namespace ZapplyGithub

/-- The FAANG inclusion set of `scrape_zapply_github.py` line 173:
`faang_companies = ['google', 'amazon', 'apple', 'meta', 'facebook',
'microsoft', 'netflix']`. -/
def faang_companies : List (List Char) :=
  ["google".toList, "amazon".toList, "apple".toList, "meta".toList,
   "facebook".toList, "microsoft".toList, "netflix".toList]

/-- The Tier-1 inclusion set of `scrape_zapply_github.py` lines 177-179. -/
def tier1_companies : List (List Char) :=
  ["tesla".toList, "nvidia".toList, "spacex".toList, "stripe".toList,
   "coinbase".toList, "uber".toList, "lyft".toList, "airbnb".toList,
   "databricks".toList, "openai".toList, "anthropic".toList, "snap".toList,
   "reddit".toList, "dropbox".toList, "twitch".toList, "x".toList,
   "twitter".toList]

/-- The explicit exclusion list of banks and consulting firms, from the
comment at `scrape_zapply_github.py` lines 182-183: "DO NOT mark these as
FAANG/Tier-1: BMO, CIBC, RBC, TD, Scotiabank, Autodesk, Canada Life,
Deloitte, EY, PwC, KPMG, Accenture".  The code carries no executable
exclusion logic; this list is stated only in that comment. -/
def exclusionList : List (List Char) :=
  ["BMO".toList, "CIBC".toList, "RBC".toList, "TD".toList,
   "Scotiabank".toList, "Autodesk".toList, "Canada Life".toList,
   "Deloitte".toList, "EY".toList, "PwC".toList, "KPMG".toList,
   "Accenture".toList]

/-- `is_faang` of `scrape_zapply_github.py` line 174:
`any(comp in current_company.lower() for comp in faang_companies)`. -/
def is_faang (company : List Char) : Bool :=
  faang_companies.any (fun comp => containsSub (pyLower company) comp)

/-- `is_tier1` of `scrape_zapply_github.py` line 180:
`any(comp in current_company.lower() for comp in tier1_companies)`. -/
def is_tier1 (company : List Char) : Bool :=
  tier1_companies.any (fun comp => containsSub (pyLower company) comp)

/-- The `job_type` keyword cascade of `scrape_zapply_github.py`
lines 161-170: `'intern' in role_lower` → internship; `'co-op' in
role_lower or 'coop' in role_lower` → internship; `'contract' in
role_lower` → contract; otherwise fulltime. -/
def job_type (role : List Char) : JobType :=
  if containsSub (pyLower role) "intern".toList then .internship
  else if containsSub (pyLower role) "co-op".toList
          || containsSub (pyLower role) "coop".toList then .internship
  else if containsSub (pyLower role) "contract".toList then .contract
  else .fulltime

/-- Control flow of `scrape_zapply_github` (lines 65-265): a fetch
exception returns `None` (lines 85-87); a parsing exception returns
`None` (lines 211-215); an empty parsed batch returns `None`
(lines 219-221); otherwise the parsed batch is returned. -/
def scrape_zapply_github {α : Type} : FetchOutcome α → Option (List α)
  | .fetchError => none
  | .parseError => none
  | .ok rows => if rows.isEmpty then none else some rows

/-- `save_to_database` of `scrape_zapply_github.py` lines 267-328 on the
`zapply_jobs` table: a `None` or empty batch returns without touching the
database (lines 270-272); otherwise every existing row is deleted
(line 308) and the new batch appended (line 312).  The trailing
`SELECT COUNT(*)` (lines 317-319) only prints the count; no comparison
against the batch size is performed. -/
def save_to_database {α : Type} (jobs_df : Option (List α)) (t : List α) : List α :=
  match jobs_df with
  | none => t
  | some b => if b.isEmpty then t else insertRows (deleteAllRows t) b

/-- `save_to_database` as run under its `try/except` (lines 276-328): an
exception anywhere in the sequence is caught and printed, the function
returns normally, and — the transaction never having been committed —
the table keeps its previous rows. -/
def save_run {α : Type} (persistError : Bool) (jobs_df : Option (List α)) (t : List α) : List α :=
  if persistError then t else save_to_database jobs_df t

end ZapplyGithub

namespace ZapplySwe2026

/-- The FAANG inclusion set of `scrape_zapply_swe_2026.py` line 132:
`faang_companies = ['amazon', 'meta', 'facebook', 'apple', 'netflix',
'google']` — six entries; `microsoft` is absent. -/
def faang_companies : List (List Char) :=
  ["amazon".toList, "meta".toList, "facebook".toList, "apple".toList,
   "netflix".toList, "google".toList]

/-- `is_faang` of `scrape_zapply_swe_2026.py` line 133:
`any(fc in company.lower() for fc in faang_companies)`. -/
def is_faang (company : List Char) : Bool :=
  faang_companies.any (fun fc => containsSub (pyLower company) fc)

/-- `save_to_database` of `scrape_zapply_swe_2026.py` lines 185-246 on the
`zapply_swe_2026_jobs` table: delete every existing row (line 214), then
insert the batch row by row (lines 218-237).  This writer has no
empty-batch guard and re-raises on error (line 246). -/
def save_to_database {α : Type} (jobs : List α) (t : List α) : List α :=
  insertRows (deleteAllRows t) jobs

end ZapplySwe2026

namespace SimplifyGithub

/-- The fire-emoji marker (U+1F525) whose presence in the role cell sets
the `faang` flag in `scrape_github_jobs.py` line 90. -/
def fireChar : Char := Char.ofNat 128293

/-- The `is_faang` field of a SimplifyJobs record (`scrape_github_jobs.py`
lines 90 and 117): `faang = '<fire emoji>' in role` — a function of the
role cell only; the company name is not consulted. -/
def record_is_faang (_company role : List Char) : Bool :=
  containsSub role [fireChar]

/-- The `job_type` field of a SimplifyJobs record (`scrape_github_jobs.py`
line 119): the constant string `'fulltime'`, whatever the role text. -/
def record_job_type (_role : List Char) : JobType := .fulltime

/-- Control flow of `scrape_simplify_jobs_github` (lines 18-171): a fetch
exception returns `None` (lines 37-39); a parsing exception returns
`None` (lines 131-135, and `no tables found` line 52-54); an empty
parsed batch returns `None` (lines 139-141); otherwise the batch is
returned. -/
def scrape_simplify_jobs_github {α : Type} : FetchOutcome α → Option (List α)
  | .fetchError => none
  | .parseError => none
  | .ok rows => if rows.isEmpty then none else some rows

/-- `save_to_database` of `scrape_github_jobs.py` lines 173-233 on the
`github_jobs` table: `None`/empty guard (lines 176-178), delete all rows
(line 213), append the batch (line 217); the `SELECT COUNT(*)`
(lines 222-224) is printed, never compared. -/
def save_to_database {α : Type} (jobs_df : Option (List α)) (t : List α) : List α :=
  match jobs_df with
  | none => t
  | some b => if b.isEmpty then t else insertRows (deleteAllRows t) b

/-- `save_to_database` under its `try/except` (lines 182-233): an
exception is caught and printed, the function returns normally and the
uncommitted transaction leaves the table unchanged. -/
def save_run {α : Type} (persistError : Bool) (jobs_df : Option (List α)) (t : List α) : List α :=
  if persistError then t else save_to_database jobs_df t

end SimplifyGithub

namespace MasterScraper

/-- The per-source outcome record built by `run_scraper`
(`master_scraper.py` lines 14-37); the elapsed-time field carries no
specified behaviour and is omitted. -/
structure ScrapeRunResult where
  success : Bool
  jobs : ℕ
deriving DecidableEq, Inhabited

/-- The two per-source tables of `database/jobs.db` that the orchestrator
writes through the imported `save_to_database` functions. -/
structure DB (α β : Type) where
  github_jobs : List α
  zapply_jobs : List β
deriving DecidableEq

/-- What one orchestrator run produces: the final database state, the
summary breakdown printed at lines 98-103 (one entry per configured
source, in order), and the process exit code chosen at lines 136-143. -/
structure MasterResult (α β : Type) where
  db : DB α β
  summary : List (List Char × ScrapeRunResult)
  exitCode : ℕ
deriving DecidableEq

/-- `run_scraper` of `master_scraper.py` lines 14-37: a non-`None`,
non-empty result yields `success=True` with the batch as `data`;
otherwise `success=False` and `data=None`. -/
def run_scraper {α : Type} (result : Option (List α)) : ScrapeRunResult × Option (List α) :=
  match result with
  | none => ({ success := false, jobs := 0 }, none)
  | some l =>
      if 0 < l.length then ({ success := true, jobs := l.length }, some l)
      else ({ success := false, jobs := 0 }, none)

/-- The key under which the SimplifyJobs source appears in `results`. -/
def simplifySourceName : List Char := "simplify".toList

/-- The key under which the Zapply source appears in `results`. -/
def zapplySourceName : List Char := "zapply".toList

/-- Lines 58-59 of `master_scraper.py`: `if result['success'] and
result['data'] is not None: save_simplify(result['data'])` — the
SimplifyJobs save touches only the `github_jobs` table. -/
def step_simplify {α β : Type} (persistError : Bool)
    (r : ScrapeRunResult × Option (List α)) (db : DB α β) : DB α β :=
  match r with
  | (res, some batch) =>
      if res.success
      then { db with github_jobs := SimplifyGithub.save_run persistError (some batch) db.github_jobs }
      else db
  | (_, none) => db

/-- Lines 69-70 of `master_scraper.py`: the Zapply save, touching only the
`zapply_jobs` table. -/
def step_zapply {α β : Type} (persistError : Bool)
    (r : ScrapeRunResult × Option (List β)) (db : DB α β) : DB α β :=
  match r with
  | (res, some batch) =>
      if res.success
      then { db with zapply_jobs := ZapplyGithub.save_run persistError (some batch) db.zapply_jobs }
      else db
  | (_, none) => db

/-- `main` of `master_scraper.py` (lines 39-134) together with the
`__main__` exit logic (lines 136-143): run the SimplifyJobs source, save
on success; run the Zapply source, save on success; produce the summary
enumerating both sources; exit 1 when every source failed
(`all(not r.get('success', False) ...)`), else 0.  `sO`/`zO` abstract
each source's fetch-and-parse outcome; `sPE`/`zPE` say whether the
corresponding `save_to_database` call raises internally. -/
def mainRun {α β : Type} (sO : FetchOutcome α) (zO : FetchOutcome β)
    (sPE zPE : Bool) (db : DB α β) : MasterResult α β :=
  let rs := run_scraper (SimplifyGithub.scrape_simplify_jobs_github sO)
  let db1 := step_simplify sPE rs db
  let rz := run_scraper (ZapplyGithub.scrape_zapply_github zO)
  let db2 := step_zapply zPE rz db1
  { db := db2
    summary := [(simplifySourceName, rs.1), (zapplySourceName, rz.1)]
    exitCode := if !rs.1.success && !rz.1.success then 1 else 0 }

end MasterScraper

end JobPipeline

namespace JobPipeline

lemma containsSub_nil (needle : List Char) : containsSub [] needle = needle.isEmpty := rfl

lemma containsSub_cons (a : Char) (t needle : List Char) :
    containsSub (a :: t) needle = (needle.isPrefixOf (a :: t) || containsSub t needle) := rfl

lemma containsSub_singleton (l : List Char) (c : Char) :
    containsSub l [c] = true ↔ c ∈ l := by
  induction l with
  | nil => simp [containsSub_nil]
  | cons a t ih =>
    rw [containsSub_cons]
    simp only [List.isPrefixOf, Bool.and_true, Bool.or_eq_true, beq_iff_eq, List.mem_cons, ih]

/-- Claim C1: for every company name on the explicit exclusion list of banks
and consulting firms (BMO, CIBC, RBC, TD, Scotiabank, Autodesk, Canada Life,
Deloitte, EY, PwC, KPMG, Accenture), the classification yields
`is_faang = false` and `is_tier1 = false`.  Proved by evaluating the Zapply
classifier on all twelve names.  The code implements no exclusion machinery
(the list exists only in a comment); the property holds because none of the
twelve names textually contains an entry of either inclusion set. -/
theorem exclusion_list_never_tagged :
    (ZapplyGithub.exclusionList.all
      (fun comp => !(ZapplyGithub.is_faang comp) && !(ZapplyGithub.is_tier1 comp))) = true := by
  decide

/-- Claim C2: `freshness_score` is the step function age<1 → 100, 1≤age<7 → 90,
7≤age<14 → 75, 14≤age<30 → 60, 30≤age<60 → 40, 60≤age → 20, null → 50; the
result always lies in [0,100], and boundary values resolve to the
lower-scoring bracket (the witness evaluates age 7 → 75 and age 1 → 90). -/
theorem freshness_score_is_step_function :
    calculate_freshness_score none = 50
    ∧ (∀ q : ℚ, q < 1 → calculate_freshness_score (some q) = 100)
    ∧ (∀ q : ℚ, 1 ≤ q → q < 7 → calculate_freshness_score (some q) = 90)
    ∧ (∀ q : ℚ, 7 ≤ q → q < 14 → calculate_freshness_score (some q) = 75)
    ∧ (∀ q : ℚ, 14 ≤ q → q < 30 → calculate_freshness_score (some q) = 60)
    ∧ (∀ q : ℚ, 30 ≤ q → q < 60 → calculate_freshness_score (some q) = 40)
    ∧ (∀ q : ℚ, 60 ≤ q → calculate_freshness_score (some q) = 20)
    ∧ (∀ d : Option ℚ, 0 ≤ calculate_freshness_score d ∧ calculate_freshness_score d ≤ 100) := by
  refine ⟨rfl, ?_, ?_, ?_, ?_, ?_, ?_, ?_⟩
  · intro q h
    simp only [calculate_freshness_score]
    rw [if_pos h]
  · intro q h1 h2
    simp only [calculate_freshness_score]
    split_ifs <;> first | rfl | linarith
  · intro q h1 h2
    simp only [calculate_freshness_score]
    split_ifs <;> first | rfl | linarith
  · intro q h1 h2
    simp only [calculate_freshness_score]
    split_ifs <;> first | rfl | linarith
  · intro q h1 h2
    simp only [calculate_freshness_score]
    split_ifs <;> first | rfl | linarith
  · intro q h
    simp only [calculate_freshness_score]
    split_ifs <;> first | rfl | linarith
  · intro d
    rcases d with _ | q
    · exact ⟨by norm_num [calculate_freshness_score], by norm_num [calculate_freshness_score]⟩
    · simp only [calculate_freshness_score]
      split_ifs <;> constructor <;> norm_num

/-- Witness for C2 at the boundary inputs 7, 1 and null. -/
theorem freshness_score_is_step_function_witness :
    calculate_freshness_score (some 7) = 75
    ∧ calculate_freshness_score (some 1) = 90
    ∧ calculate_freshness_score none = 50 :=
  ⟨freshness_score_is_step_function.2.2.2.1 7 (by norm_num) (by norm_num),
   freshness_score_is_step_function.2.2.1 1 (by norm_num) (by norm_num),
   freshness_score_is_step_function.1⟩

/-- Claim C10: in the Zapply parser, every company whose lower-cased name
contains the letter `x` anywhere is tagged `is_tier1 = true`, because the
single character `x` is itself an entry of the Tier-1 inclusion set and
membership is case-insensitive substring containment. -/
theorem tier1_single_letter_x (company : List Char)
    (h : containsSub (pyLower company) ['x'] = true) :
    ZapplyGithub.is_tier1 company = true := by
  unfold ZapplyGithub.is_tier1
  exact List.any_eq_true.mpr ⟨"x".toList, by decide, h⟩

/-- Witness for C10: the company FedEx is tagged Tier-1. -/
theorem tier1_single_letter_x_witness :
    ZapplyGithub.is_tier1 "FedEx".toList = true :=
  tier1_single_letter_x "FedEx".toList (by decide)

/-- Counterexample to claim C4 as stated: the title
`Software Engineering Intern` contains the keyword `intern`, yet the
SimplifyJobs normalizer records `job_type = fulltime`
(`scrape_github_jobs.py` line 119 hard-codes the value), so the keyword rule
does not hold for every source's normalizer. -/
theorem job_type_not_uniform_counterexample :
    containsSub (pyLower "Software Engineering Intern".toList) "intern".toList = true
    ∧ SimplifyGithub.record_job_type "Software Engineering Intern".toList = JobType.fulltime := by
  constructor
  · decide
  · rfl

/-- Claim C4 (amended): in the Zapply GitHub normalizer a title containing
`intern`, `co-op` or `coop` yields internship, otherwise one containing
`contract` yields contract, and every other title yields fulltime; the
SimplifyJobs normalizer assigns fulltime to every title unconditionally. -/
theorem job_type_keyword_rules (t : List Char) :
    (ZapplyGithub.job_type t = JobType.internship ↔
      (containsSub (pyLower t) "intern".toList = true
        ∨ containsSub (pyLower t) "co-op".toList = true
        ∨ containsSub (pyLower t) "coop".toList = true))
    ∧ (ZapplyGithub.job_type t = JobType.contract ↔
      (containsSub (pyLower t) "intern".toList = false
        ∧ containsSub (pyLower t) "co-op".toList = false
        ∧ containsSub (pyLower t) "coop".toList = false
        ∧ containsSub (pyLower t) "contract".toList = true))
    ∧ (ZapplyGithub.job_type t = JobType.fulltime ↔
      (containsSub (pyLower t) "intern".toList = false
        ∧ containsSub (pyLower t) "co-op".toList = false
        ∧ containsSub (pyLower t) "coop".toList = false
        ∧ containsSub (pyLower t) "contract".toList = false))
    ∧ SimplifyGithub.record_job_type t = JobType.fulltime := by
  unfold ZapplyGithub.job_type SimplifyGithub.record_job_type
  cases h1 : containsSub (pyLower t) "intern".toList <;>
  cases h2 : containsSub (pyLower t) "co-op".toList <;>
  cases h3 : containsSub (pyLower t) "coop".toList <;>
  cases h4 : containsSub (pyLower t) "contract".toList <;>
  simp [h1, h2, h3, h4]

/-- Counterexample to claim C5 as stated: the company name `Microsoft`
case-insensitively contains an entry of the fixed 7-entry FAANG set, yet the
SWE-2026 classifier returns `is_faang = false` (its inclusion set has six
entries and omits `microsoft`), so `is_faang` is not `contains an entry of
the 7-entry set` for every source's classifier. -/
theorem faang_not_uniform_counterexample :
    (ZapplyGithub.faang_companies.any
      (fun p => containsSub (pyLower "Microsoft".toList) p)) = true
    ∧ ZapplySwe2026.is_faang "Microsoft".toList = false := by
  constructor <;> decide

/-- Claim C5 (amended): in `scrape_zapply_github`, `is_faang` holds exactly
when the company name case-insensitively contains one of the seven entries
google, amazon, apple, meta, facebook, microsoft, netflix; in
`scrape_zapply_swe_2026` the inclusion set has only six entries (microsoft is
absent); in the SimplifyJobs scraper `is_faang` is instead the presence of
the fire-emoji marker in the role cell, independent of the company name. -/
theorem is_faang_per_source (company role : List Char) :
    (ZapplyGithub.is_faang company = true ↔
      ∃ p ∈ ZapplyGithub.faang_companies, containsSub (pyLower company) p = true)
    ∧ ZapplyGithub.faang_companies.length = 7
    ∧ (ZapplySwe2026.is_faang company = true ↔
      ∃ p ∈ ZapplySwe2026.faang_companies, containsSub (pyLower company) p = true)
    ∧ ZapplySwe2026.faang_companies.length = 6
    ∧ (∀ other : List Char, SimplifyGithub.record_is_faang company role
        = SimplifyGithub.record_is_faang other role)
    ∧ (SimplifyGithub.record_is_faang company role = true ↔ SimplifyGithub.fireChar ∈ role) := by
  refine ⟨?_, rfl, ?_, rfl, fun other => rfl, ?_⟩
  · simp [ZapplyGithub.is_faang, List.any_eq_true]
  · simp [ZapplySwe2026.is_faang, List.any_eq_true]
  · exact containsSub_singleton role SimplifyGithub.fireChar

/-- Claim C6: snapshot replace — for every source, after two consecutive
successful write runs with disjoint nonempty batches B1 then B2, the
persisted table for that source contains exactly B2's records and none of
B1's, because every existing row is deleted before the new batch is
inserted.  Proved for all three snapshot writers. -/
theorem snapshot_replace {α : Type} (t B1 B2 : List α)
    (_h1 : B1 ≠ []) (h2 : B2 ≠ []) (hdisj : ∀ x ∈ B1, x ∉ B2) :
    SimplifyGithub.save_to_database (some B2) (SimplifyGithub.save_to_database (some B1) t) = B2
    ∧ ZapplyGithub.save_to_database (some B2) (ZapplyGithub.save_to_database (some B1) t) = B2
    ∧ ZapplySwe2026.save_to_database B2 (ZapplySwe2026.save_to_database B1 t) = B2
    ∧ ∀ x ∈ B1, x ∉ ZapplyGithub.save_to_database (some B2) (ZapplyGithub.save_to_database (some B1) t) := by
  have hz : ZapplyGithub.save_to_database (some B2) (ZapplyGithub.save_to_database (some B1) t) = B2 := by
    simp [ZapplyGithub.save_to_database, insertRows, deleteAllRows, h2]
  refine ⟨?_, hz, ?_, ?_⟩
  · simp [SimplifyGithub.save_to_database, insertRows, deleteAllRows, h2]
  · simp [ZapplySwe2026.save_to_database, insertRows, deleteAllRows]
  · rw [hz]
    exact hdisj

/-- Witness for C6 with concrete tables and batches. -/
theorem snapshot_replace_witness :
    ZapplyGithub.save_to_database (some [2]) (ZapplyGithub.save_to_database (some [1]) [0]) = ([2] : List ℕ)
    ∧ SimplifyGithub.save_to_database (some [2]) (SimplifyGithub.save_to_database (some [1]) [0]) = ([2] : List ℕ) := by
  have h := snapshot_replace ([0] : List ℕ) [1] [2] (by decide) (by decide) (by decide)
  exact ⟨h.2.1, h.1⟩

end JobPipeline

namespace JobPipeline

namespace MasterScraper

lemma step_simplify_zapply_jobs {α β : Type} (pe : Bool)
    (r : ScrapeRunResult × Option (List α)) (db : DB α β) :
    (step_simplify pe r db).zapply_jobs = db.zapply_jobs := by
  rcases r with ⟨res, _ | batch⟩
  · rfl
  · simp only [step_simplify]
    split_ifs <;> rfl

lemma step_zapply_github_jobs {α β : Type} (pe : Bool)
    (r : ScrapeRunResult × Option (List β)) (db : DB α β) :
    (step_zapply pe r db).github_jobs = db.github_jobs := by
  rcases r with ⟨res, _ | batch⟩
  · rfl
  · simp only [step_zapply]
    split_ifs <;> rfl

lemma step_zapply_persist_error {α β : Type}
    (r : ScrapeRunResult × Option (List β)) (db : DB α β) :
    (step_zapply true r db).zapply_jobs = db.zapply_jobs := by
  rcases r with ⟨res, _ | batch⟩
  · rfl
  · simp only [step_zapply, ZapplyGithub.save_run]
    split_ifs <;> rfl

lemma step_simplify_persist_error {α β : Type}
    (r : ScrapeRunResult × Option (List α)) (db : DB α β) :
    (step_simplify true r db).github_jobs = db.github_jobs := by
  rcases r with ⟨res, _ | batch⟩
  · rfl
  · simp only [step_simplify, SimplifyGithub.save_run]
    split_ifs <;> rfl

lemma step_zapply_zapply_jobs_eq {α β : Type} (pe : Bool)
    (r : ScrapeRunResult × Option (List β)) (db1 db2 : DB α β)
    (h : db1.zapply_jobs = db2.zapply_jobs) :
    (step_zapply pe r db1).zapply_jobs = (step_zapply pe r db2).zapply_jobs := by
  rcases r with ⟨res, _ | batch⟩
  · exact h
  · simp only [step_zapply]
    split_ifs <;> simp [h]

end MasterScraper

/-- Claim C7: atomicity on failure — for each orchestrated source, a run that
fails before a successful write (fetch transport error, parse error, or an
empty parsed batch) makes the scraper return `None`, the orchestrator skips
the save, and that source's previously persisted table is left completely
unchanged. -/
theorem failed_source_preserves_snapshot {α β : Type} (sO : FetchOutcome α) (zO : FetchOutcome β)
    (sPE zPE : Bool) (db : MasterScraper.DB α β) :
    ((zO = FetchOutcome.fetchError ∨ zO = FetchOutcome.parseError ∨ zO = FetchOutcome.ok []) →
      ZapplyGithub.scrape_zapply_github zO = none
      ∧ (MasterScraper.mainRun sO zO sPE zPE db).db.zapply_jobs = db.zapply_jobs)
    ∧ ((sO = FetchOutcome.fetchError ∨ sO = FetchOutcome.parseError ∨ sO = FetchOutcome.ok []) →
      SimplifyGithub.scrape_simplify_jobs_github sO = none
      ∧ (MasterScraper.mainRun sO zO sPE zPE db).db.github_jobs = db.github_jobs) := by
  constructor
  · intro h
    have hz : ZapplyGithub.scrape_zapply_github zO = none := by
      rcases h with rfl | rfl | rfl <;> rfl
    refine ⟨hz, ?_⟩
    simp only [MasterScraper.mainRun, hz]
    rw [show MasterScraper.run_scraper (none : Option (List β)) = (⟨false, 0⟩, none) from rfl]
    rw [show MasterScraper.step_zapply zPE ((⟨false, 0⟩ : MasterScraper.ScrapeRunResult), (none : Option (List β))) (MasterScraper.step_simplify sPE (MasterScraper.run_scraper (SimplifyGithub.scrape_simplify_jobs_github sO)) db) = MasterScraper.step_simplify sPE (MasterScraper.run_scraper (SimplifyGithub.scrape_simplify_jobs_github sO)) db from rfl]
    exact MasterScraper.step_simplify_zapply_jobs sPE _ db
  · intro h
    have hs : SimplifyGithub.scrape_simplify_jobs_github sO = none := by
      rcases h with rfl | rfl | rfl <;> rfl
    refine ⟨hs, ?_⟩
    simp only [MasterScraper.mainRun, hs]
    rw [show MasterScraper.run_scraper (none : Option (List α)) = (⟨false, 0⟩, none) from rfl]
    rw [show MasterScraper.step_simplify sPE ((⟨false, 0⟩ : MasterScraper.ScrapeRunResult), (none : Option (List α))) db = db from rfl]
    exact MasterScraper.step_zapply_github_jobs zPE _ db

/-- Witness for C7: a fetch error on the Zapply source leaves its previously
persisted rows intact. -/
theorem failed_source_preserves_snapshot_witness :
    ZapplyGithub.scrape_zapply_github (FetchOutcome.fetchError : FetchOutcome ℕ) = none
    ∧ (MasterScraper.mainRun (FetchOutcome.ok [7]) (FetchOutcome.fetchError : FetchOutcome ℕ)
        false false (⟨[1], [2]⟩ : MasterScraper.DB ℕ ℕ)).db.zapply_jobs = [2] :=
  (failed_source_preserves_snapshot (FetchOutcome.ok [7]) FetchOutcome.fetchError
    false false (⟨[1], [2]⟩ : MasterScraper.DB ℕ ℕ)).1 (Or.inl rfl)

/-- Counterexample to claim C8 as stated: a concrete run in which the Zapply
scrape succeeds with one job and its `save_to_database` raises — the
orchestrator's summary still reports the Zapply source as successful (and
the exit code is 0), because the success flag is computed from the scrape
result before saving and the writer swallows its exceptions. -/
theorem persistence_error_still_reported_success :
    (MasterScraper.mainRun (FetchOutcome.fetchError : FetchOutcome ℕ) (FetchOutcome.ok ([7] : List ℕ))
        false true (⟨[], [5]⟩ : MasterScraper.DB ℕ ℕ)).summary
      = [(MasterScraper.simplifySourceName, ⟨false, 0⟩), (MasterScraper.zapplySourceName, ⟨true, 1⟩)]
    ∧ (MasterScraper.mainRun (FetchOutcome.fetchError : FetchOutcome ℕ) (FetchOutcome.ok ([7] : List ℕ))
        false true (⟨[], [5]⟩ : MasterScraper.DB ℕ ℕ)).db.zapply_jobs = [5]
    ∧ (MasterScraper.mainRun (FetchOutcome.fetchError : FetchOutcome ℕ) (FetchOutcome.ok ([7] : List ℕ))
        false true (⟨[], [5]⟩ : MasterScraper.DB ℕ ℕ)).exitCode = 0 := by
  refine ⟨rfl, rfl, rfl⟩

/-- Claim C8 (amended): a persistence error is caught inside
`save_to_database` and never marks a source failed.  For any combination of
per-source save failures the orchestrator's summary and exit code are
exactly those of an error-free run; a failing save on either source leaves
that source's table holding its previously persisted rows (the transaction
is never committed, so no partial write happens); and either source's save
failure leaves the other source's table exactly as it would be without the
error. -/
theorem persistence_error_swallowed {α β : Type} (sO : FetchOutcome α) (zO : FetchOutcome β)
    (sPE zPE : Bool) (db : MasterScraper.DB α β) :
    (MasterScraper.mainRun sO zO sPE zPE db).summary
      = (MasterScraper.mainRun sO zO false false db).summary
    ∧ (MasterScraper.mainRun sO zO sPE zPE db).exitCode
      = (MasterScraper.mainRun sO zO false false db).exitCode
    ∧ (MasterScraper.mainRun sO zO true zPE db).db.github_jobs = db.github_jobs
    ∧ (MasterScraper.mainRun sO zO sPE true db).db.zapply_jobs = db.zapply_jobs
    ∧ (MasterScraper.mainRun sO zO sPE true db).db.github_jobs
      = (MasterScraper.mainRun sO zO sPE false db).db.github_jobs
    ∧ (MasterScraper.mainRun sO zO true zPE db).db.zapply_jobs
      = (MasterScraper.mainRun sO zO false zPE db).db.zapply_jobs := by
  refine ⟨rfl, rfl, ?_, ?_, ?_, ?_⟩
  · simp only [MasterScraper.mainRun]
    rw [MasterScraper.step_zapply_github_jobs]
    exact MasterScraper.step_simplify_persist_error _ db
  · simp only [MasterScraper.mainRun]
    rw [MasterScraper.step_zapply_persist_error]
    exact MasterScraper.step_simplify_zapply_jobs sPE _ db
  · simp only [MasterScraper.mainRun]
    rw [MasterScraper.step_zapply_github_jobs, MasterScraper.step_zapply_github_jobs]
  · simp only [MasterScraper.mainRun]
    apply MasterScraper.step_zapply_zapply_jobs_eq
    rw [MasterScraper.step_simplify_zapply_jobs, MasterScraper.step_simplify_zapply_jobs]

/-- Claim C9: for every orchestrator run, the summary enumerates every
configured source, the exit code is 0 exactly when at least one source's run
succeeded and 1 exactly when every source's run failed, and the summary is
part of the run result in both cases. -/
theorem orchestrator_exit_and_summary {α β : Type} (sO : FetchOutcome α) (zO : FetchOutcome β)
    (sPE zPE : Bool) (db : MasterScraper.DB α β) :
    ((MasterScraper.mainRun sO zO sPE zPE db).summary.map Prod.fst
       = [MasterScraper.simplifySourceName, MasterScraper.zapplySourceName])
    ∧ ((MasterScraper.mainRun sO zO sPE zPE db).exitCode = 0 ↔
        ∃ p ∈ (MasterScraper.mainRun sO zO sPE zPE db).summary, p.2.success = true)
    ∧ ((MasterScraper.mainRun sO zO sPE zPE db).exitCode = 1 ↔
        ∀ p ∈ (MasterScraper.mainRun sO zO sPE zPE db).summary, p.2.success = false) := by
  simp only [MasterScraper.mainRun]
  generalize MasterScraper.run_scraper (SimplifyGithub.scrape_simplify_jobs_github sO) = rs
  generalize MasterScraper.run_scraper (ZapplyGithub.scrape_zapply_github zO) = rz
  obtain ⟨⟨sSucc, sJobs⟩, sData⟩ := rs
  obtain ⟨⟨zSucc, zJobs⟩, zData⟩ := rz
  refine ⟨rfl, ?_, ?_⟩ <;> cases sSucc <;> cases zSucc <;> simp

end JobPipeline

namespace JobPipeline

lemma mem_digitChars_not_space {c : Char} (h : c ∈ digitChars) : isPySpace c = false := by
  fin_cases h <;> decide

lemma mem_digitChars_toLower {c : Char} (h : c ∈ digitChars) : Char.toLower c = c := by
  fin_cases h <;> decide

lemma mem_digitChars_isDigit {c : Char} (h : c ∈ digitChars) : Char.isDigit c = true := by
  fin_cases h <;> decide

lemma pyLower_digits (ds : List Char) (h : ∀ c ∈ ds, c ∈ digitChars) :
    List.map Char.toLower ds = ds := by
  induction ds with
  | nil => rfl
  | cons c t ih =>
    simp only [List.map_cons]
    rw [mem_digitChars_toLower (h c (List.mem_cons_self c t)),
      ih (fun x hx => h x (List.mem_cons_of_mem c hx))]

lemma takeWhile_digits_append (ds rest : List Char) (h : ∀ c ∈ ds, c ∈ digitChars)
    (hr : rest.takeWhile Char.isDigit = []) :
    (ds ++ rest).takeWhile Char.isDigit = ds := by
  induction ds with
  | nil => simpa using hr
  | cons c t ih =>
    simp only [List.cons_append, List.takeWhile_cons,
      mem_digitChars_isDigit (h c (List.mem_cons_self c t)), if_true]
    rw [ih (fun x hx => h x (List.mem_cons_of_mem c hx))]

lemma pyLower_canonical (ds : List Char) (u : TimeUnit) (h : ∀ c ∈ ds, c ∈ digitChars) :
    pyLower (ds ++ (unitChars u ++ [' ', 'a', 'g', 'o']))
      = ds ++ (unitChars u ++ [' ', 'a', 'g', 'o']) := by
  unfold pyLower
  rw [List.map_append, pyLower_digits ds h]
  congr 1
  cases u <;> decide

lemma pyStrip_canonical (ds : List Char) (u : TimeUnit) (hne : ds ≠ [])
    (h : ∀ c ∈ ds, c ∈ digitChars) :
    pyStrip (ds ++ (unitChars u ++ [' ', 'a', 'g', 'o']))
      = ds ++ (unitChars u ++ [' ', 'a', 'g', 'o']) := by
  obtain ⟨d, t, rfl⟩ : ∃ d t, ds = d :: t := by
    cases ds with
    | nil => exact absurd rfl hne
    | cons d t => exact ⟨d, t, rfl⟩
  unfold pyStrip
  have h1 : ((d :: t) ++ (unitChars u ++ [' ', 'a', 'g', 'o'])).dropWhile isPySpace
      = (d :: t) ++ (unitChars u ++ [' ', 'a', 'g', 'o']) := by
    simp only [List.cons_append, List.dropWhile_cons,
      mem_digitChars_not_space (h d (List.mem_cons_self d t))]
    simp
  rw [h1]
  obtain ⟨Z, hZ⟩ : ∃ Z, (unitChars u ++ [' ', 'a', 'g', 'o']).reverse = 'o' :: Z := by
    cases u
    · exact ⟨['g', 'a', ' ', 'h'], rfl⟩
    · exact ⟨['g', 'a', ' ', 'd'], rfl⟩
    · exact ⟨['g', 'a', ' ', 'w'], rfl⟩
    · exact ⟨['g', 'a', ' ', 'o', 'm'], rfl⟩
    · exact ⟨['g', 'a', ' ', 'm'], rfl⟩
  have h2 : ((d :: t) ++ (unitChars u ++ [' ', 'a', 'g', 'o'])).reverse.dropWhile isPySpace
      = ((d :: t) ++ (unitChars u ++ [' ', 'a', 'g', 'o'])).reverse := by
    rw [List.reverse_append, hZ]
    simp only [List.cons_append, List.dropWhile_cons,
      show isPySpace 'o' = false from rfl]
    simp
  rw [h2, List.reverse_reverse]

lemma matchAt_canonical (ds : List Char) (u : TimeUnit) (hne : ds ≠ [])
    (h : ∀ c ∈ ds, c ∈ digitChars) :
    matchAt (ds ++ (unitChars u ++ [' ', 'a', 'g', 'o'])) = some (digitsToNat ds, u) := by
  have hne' : ds.isEmpty = false := by
    cases ds with
    | nil => exact absurd rfl hne
    | cons a t => rfl
  have htw : (ds ++ (unitChars u ++ [' ', 'a', 'g', 'o'])).takeWhile Char.isDigit = ds :=
    takeWhile_digits_append ds _ h (by cases u <;> rfl)
  simp only [matchAt, htw, hne', Bool.false_eq_true, if_false, List.drop_left]
  cases u <;> rfl

lemma searchTimeAgo_canonical (ds : List Char) (u : TimeUnit) (hne : ds ≠ [])
    (h : ∀ c ∈ ds, c ∈ digitChars) :
    searchTimeAgo (ds ++ (unitChars u ++ [' ', 'a', 'g', 'o'])) = some (digitsToNat ds, u) := by
  obtain ⟨d, t, rfl⟩ : ∃ d t, ds = d :: t := by
    cases ds with
    | nil => exact absurd rfl hne
    | cons d t => exact ⟨d, t, rfl⟩
  have hm := matchAt_canonical (d :: t) u hne h
  simp only [List.cons_append] at hm ⊢
  rw [searchTimeAgo, hm]

lemma parse_time_ago_canonical (ds : List Char) (u : TimeUnit) (hne : ds ≠ [])
    (h : ∀ c ∈ ds, c ∈ digitChars) :
    parse_time_ago (ds ++ (unitChars u ++ [' ', 'a', 'g', 'o']))
      = (some (unitDays (digitsToNat ds) u), some (unitDays (digitsToNat ds) u)) := by
  unfold parse_time_ago
  rw [pyStrip_canonical ds u hne h, pyLower_canonical ds u h, searchTimeAgo_canonical ds u hne h]

/-- Claim C3: for every input of the form `<integer><unit> ago` with unit
`h`, `d`, `w`, `mo` or `m`, `parse_time_ago` returns a non-negative
`age_days` computed as hours/24, days x 1, weeks x 7, months x 30, together
with a non-null date; and it returns `(null, null)` exactly when the regex
search over the lower-cased, stripped text fails. -/
theorem parse_time_ago_contract :
    (∀ ds : List Char, ds ≠ [] → (∀ c ∈ ds, c ∈ digitChars) →
      (parse_time_ago (ds ++ ['h', ' ', 'a', 'g', 'o'])
          = (some ((digitsToNat ds : ℚ) / 24), some ((digitsToNat ds : ℚ) / 24))
        ∧ parse_time_ago (ds ++ ['d', ' ', 'a', 'g', 'o'])
          = (some (digitsToNat ds : ℚ), some (digitsToNat ds : ℚ))
        ∧ parse_time_ago (ds ++ ['w', ' ', 'a', 'g', 'o'])
          = (some ((digitsToNat ds : ℚ) * 7), some ((digitsToNat ds : ℚ) * 7))
        ∧ parse_time_ago (ds ++ ['m', 'o', ' ', 'a', 'g', 'o'])
          = (some ((digitsToNat ds : ℚ) * 30), some ((digitsToNat ds : ℚ) * 30))
        ∧ parse_time_ago (ds ++ ['m', ' ', 'a', 'g', 'o'])
          = (some ((digitsToNat ds : ℚ) * 30), some ((digitsToNat ds : ℚ) * 30))
        ∧ ∀ u : TimeUnit, 0 ≤ unitDays (digitsToNat ds) u))
    ∧ (∀ s : List Char, parse_time_ago s = (none, none)
        ↔ searchTimeAgo (pyLower (pyStrip s)) = none) := by
  constructor
  · intro ds hne h
    refine ⟨parse_time_ago_canonical ds .hours hne h,
      parse_time_ago_canonical ds .days hne h,
      parse_time_ago_canonical ds .weeks hne h,
      parse_time_ago_canonical ds .months hne h,
      parse_time_ago_canonical ds .monthsShort hne h, ?_⟩
    intro u
    cases u <;> simp only [unitDays] <;> positivity
  · intro s
    unfold parse_time_ago
    cases hsearch : searchTimeAgo (pyLower (pyStrip s)) with
    | none => simp
    | some vu =>
      rcases vu with ⟨v, u⟩
      simp

/-- Witness for C3: `3h ago` parses to an eighth of a day with a non-null
date, and `yesterday` yields `(null, null)`. -/
theorem parse_time_ago_contract_witness :
    parse_time_ago ['3', 'h', ' ', 'a', 'g', 'o'] = (some (3 / 24), some (3 / 24))
    ∧ parse_time_ago "yesterday".toList = (none, none) := by
  constructor
  · have h := (parse_time_ago_contract.1 ['3'] (by decide) (by decide)).1
    have h3 : digitsToNat ['3'] = 3 := by decide
    rw [h3] at h
    simpa using h
  · exact (parse_time_ago_contract.2 "yesterday".toList).mpr (by decide)

end JobPipeline
